import Mathlib

/-!
# go-todo-api-03: a shallow embedding of the CRUD pipeline

The three layers of the program (request handler, application service,
persistence gateway) are embedded as Lean functions with explicit state
passing.  A Go method returning `(value, error)` becomes a function returning
the pair `value × Option Error` (`none` is Go's `nil` error) together with the
state of the layer below.  Interfaces (`TodoRepository`, `TodoService`) become
structures of functions over an arbitrary state type, so that every statement
about the service holds for every repository, and every statement about the
handlers holds for every service, mocks included.
-/

set_option linter.dupNamespace false

namespace TodoApi

/-! ## models/todo.go -/

/-- The record `models.Todo`.  The first four fields are those of the embedded
`gorm.Model`.  Times are abstract instants (`0` is Go's zero `time.Time`), and
`DeletedAt` is `gorm.DeletedAt`, a nullable time. -/
structure Todo where
  ID : Nat
  CreatedAt : Nat
  UpdatedAt : Nat
  DeletedAt : Option Nat
  Title : String
  Description : String
  Completed : Bool
  deriving DecidableEq, Repr

/-- The zero value `models.Todo{}`, which `var todo models.Todo` declares. -/
def Todo.zero : Todo :=
  { ID := 0, CreatedAt := 0, UpdatedAt := 0, DeletedAt := none,
    Title := "", Description := "", Completed := false }

/-! ## Errors -/

/-- Values of Go's `error` interface, in the three classes of the error
taxonomy, each carrying the text that `err.Error()` returns. -/
inductive Error where
  | NotFoundError (msg : String)
  | ValidationError (msg : String)
  | StoreError (msg : String)
  deriving DecidableEq, Repr

/-- The method `err.Error()`. -/
def Error.Error : Error → String
  | .NotFoundError msg => msg
  | .ValidationError msg => msg
  | .StoreError msg => msg

/-! ## repositories/todo_repository.go: the interface -/

/-- The interface `repositories.TodoRepository`, over a store state `σ`. -/
structure TodoRepository (σ : Type) where
  FindAll : σ → (List Todo × Option Error) × σ
  FindByID : Nat → σ → (Todo × Option Error) × σ
  Create : Todo → σ → (Todo × Option Error) × σ
  Update : Todo → σ → (Todo × Option Error) × σ
  Delete : Todo → σ → Option Error × σ

/-! ## services/todo_service.go -/

/-- The interface `services.TodoService`, over a state `σ`. -/
structure TodoService (σ : Type) where
  GetAllTodos : σ → (List Todo × Option Error) × σ
  GetTodoByID : Nat → σ → (Todo × Option Error) × σ
  CreateTodo : Todo → σ → (Todo × Option Error) × σ
  UpdateTodo : Todo → σ → (Todo × Option Error) × σ
  DeleteTodo : Nat → σ → Option Error × σ

namespace todoService

variable {σ : Type}

/-- The method `(*todoService).GetAllTodos`. -/
def GetAllTodos (repo : TodoRepository σ) (s : σ) : (List Todo × Option Error) × σ :=
  repo.FindAll s

/-- The method `(*todoService).GetTodoByID`. -/
def GetTodoByID (repo : TodoRepository σ) (id : Nat) (s : σ) : (Todo × Option Error) × σ :=
  repo.FindByID id s

/-- The method `(*todoService).CreateTodo`. -/
def CreateTodo (repo : TodoRepository σ) (todo : Todo) (s : σ) : (Todo × Option Error) × σ :=
  repo.Create todo s

/-- The method `(*todoService).UpdateTodo`. -/
def UpdateTodo (repo : TodoRepository σ) (todo : Todo) (s : σ) : (Todo × Option Error) × σ :=
  repo.Update todo s

/-- The method `(*todoService).DeleteTodo`: look the record up, return the
lookup's error when there is one, otherwise delete the record found. -/
def DeleteTodo (repo : TodoRepository σ) (id : Nat) (s : σ) : Option Error × σ :=
  match repo.FindByID id s with
  | ((todo, err), s1) =>
    match err with
    | some e => (some e, s1)
    | none => repo.Delete todo s1

end todoService

/-- The constructor `services.NewTodoService`. -/
def NewTodoService {σ : Type} (repo : TodoRepository σ) : TodoService σ :=
  { GetAllTodos := todoService.GetAllTodos repo
    GetTodoByID := todoService.GetTodoByID repo
    CreateTodo := todoService.CreateTodo repo
    UpdateTodo := todoService.UpdateTodo repo
    DeleteTodo := todoService.DeleteTodo repo }

/-! ## Recording the calls a layer makes

`mock.Mock` of the test files records every call made on a mocked interface.
The wrappers below do the same for an arbitrary implementation: the state is
paired with the list of calls made so far, oldest first, and every method adds
its own call before delegating. -/

/-- A call on a `TodoRepository`, with its argument. -/
inductive RepoCall where
  | FindAll
  | FindByID (id : Nat)
  | Create (todo : Todo)
  | Update (todo : Todo)
  | Delete (todo : Todo)
  deriving DecidableEq, Repr

/-- The repository `repo`, recording its calls. -/
def TodoRepository.recording {σ : Type} (repo : TodoRepository σ) :
    TodoRepository (σ × List RepoCall) :=
  { FindAll := fun s =>
      ((repo.FindAll s.1).1, ((repo.FindAll s.1).2, s.2 ++ [RepoCall.FindAll]))
    FindByID := fun id s =>
      ((repo.FindByID id s.1).1, ((repo.FindByID id s.1).2, s.2 ++ [RepoCall.FindByID id]))
    Create := fun todo s =>
      ((repo.Create todo s.1).1, ((repo.Create todo s.1).2, s.2 ++ [RepoCall.Create todo]))
    Update := fun todo s =>
      ((repo.Update todo s.1).1, ((repo.Update todo s.1).2, s.2 ++ [RepoCall.Update todo]))
    Delete := fun todo s =>
      ((repo.Delete todo s.1).1, ((repo.Delete todo s.1).2, s.2 ++ [RepoCall.Delete todo])) }

/-- A call on a `TodoService`, with its argument. -/
inductive ServiceCall where
  | GetAllTodos
  | GetTodoByID (id : Nat)
  | CreateTodo (todo : Todo)
  | UpdateTodo (todo : Todo)
  | DeleteTodo (id : Nat)
  deriving DecidableEq, Repr

/-- The service `svc`, recording its calls. -/
def TodoService.recording {σ : Type} (svc : TodoService σ) :
    TodoService (σ × List ServiceCall) :=
  { GetAllTodos := fun s =>
      ((svc.GetAllTodos s.1).1, ((svc.GetAllTodos s.1).2, s.2 ++ [ServiceCall.GetAllTodos]))
    GetTodoByID := fun id s =>
      ((svc.GetTodoByID id s.1).1,
        ((svc.GetTodoByID id s.1).2, s.2 ++ [ServiceCall.GetTodoByID id]))
    CreateTodo := fun todo s =>
      ((svc.CreateTodo todo s.1).1,
        ((svc.CreateTodo todo s.1).2, s.2 ++ [ServiceCall.CreateTodo todo]))
    UpdateTodo := fun todo s =>
      ((svc.UpdateTodo todo s.1).1,
        ((svc.UpdateTodo todo s.1).2, s.2 ++ [ServiceCall.UpdateTodo todo]))
    DeleteTodo := fun id s =>
      ((svc.DeleteTodo id s.1).1,
        ((svc.DeleteTodo id s.1).2, s.2 ++ [ServiceCall.DeleteTodo id])) }

/-! ## strconv (Go standard library), for a 64-bit `int`

The handlers read the path parameter with `strconv.Atoi`.  A Go string is a
sequence of bytes, here a list of byte values. -/

namespace strconv

/-- The two causes `NumError.Err` of a failed conversion. -/
inductive NumError where
  | ErrSyntax
  | ErrRange
  deriving DecidableEq, Repr

/-- The constant `strconv.IntSize`. -/
def IntSize : Nat := 64

/-- The constant `maxUint64`. -/
def maxUint64 : Nat := 2 ^ 64 - 1

/-- The helper `lower(c)`, which is `c | ('x' - 'X')`. -/
def lower (c : Nat) : Nat := c ||| 32

/-- The digit value that the loop of `ParseUint` gives byte `c`, or `none`
where the `switch` falls to `default` (base 10 is not base 0, so an
underscore has no case of its own). -/
def digitValue (c : Nat) : Option Nat :=
  if 48 ≤ c ∧ c ≤ 57 then some (c - 48)
  else if 97 ≤ lower c ∧ lower c ≤ 122 then some (lower c - 97 + 10)
  else none

/-- The loop of `ParseUint(s, 10, 64)` over the bytes still to read, `n` being
the value accumulated so far; `cutoff` is `maxUint64/10 + 1` and `maxVal` is
`1<<64 - 1`. -/
def ParseUint.loop (cutoff maxVal : Nat) : List Nat → Nat → Nat × Option NumError
  | [], n => (n, none)
  | c :: cs, n =>
    match digitValue c with
    | none => (0, some NumError.ErrSyntax)
    | some d =>
      if d ≥ 10 then (0, some NumError.ErrSyntax)
      else if n ≥ cutoff then (maxVal, some NumError.ErrRange)
      else
        let n10 := n * 10 % 2 ^ 64
        let n1 := (n10 + d) % 2 ^ 64
        if n1 < n10 ∨ n1 > maxVal then (maxVal, some NumError.ErrRange)
        else ParseUint.loop cutoff maxVal cs n1

/-- The function `ParseUint(s, 10, 64)`. -/
def ParseUint (s : List Nat) : Nat × Option NumError :=
  if s = [] then (0, some NumError.ErrSyntax)
  else ParseUint.loop (maxUint64 / 10 + 1) maxUint64 s 0

/-- The conversion `int64(u)` of a `uint64`. -/
def int64 (u : Nat) : Int :=
  if u % 2 ^ 64 < 2 ^ 63 then ((u % 2 ^ 64 : Nat) : Int) else ((u % 2 ^ 64 : Nat) : Int) - 2 ^ 64

/-- The negation `-n` of an `int64`, which wraps at the least value. -/
def negInt64 (n : Int) : Int :=
  (-n + 2 ^ 63) % 2 ^ 64 - 2 ^ 63

/-- The function `ParseInt(s, 10, 0)`: the sign is picked off, the rest goes
through `ParseUint`, and a value out of range is clamped. -/
def ParseInt (s : List Nat) : Int × Option NumError :=
  match s with
  | [] => (0, some NumError.ErrSyntax)
  | c :: cs =>
    let neg := decide (c = 45)
    let rest := if c = 43 then cs else if c = 45 then cs else c :: cs
    match ParseUint rest with
    | (un, err) =>
      if err ≠ none ∧ err ≠ some NumError.ErrRange then (0, err)
      else
        let cutoff : Nat := 2 ^ (IntSize - 1)
        if neg = false ∧ un ≥ cutoff then (((cutoff - 1 : Nat) : Int), some NumError.ErrRange)
        else if neg = true ∧ un > cutoff then (-((cutoff : Nat) : Int), some NumError.ErrRange)
        else
          let n := int64 un
          (if neg then negInt64 n else n, none)

/-- The loop of the fast path of `Atoi`: `none` where it returns a syntax
error.  The byte subtraction `ch -= 0x30` wraps.  The fast path is taken for
fewer than 19 bytes, so `n*10 + int(ch)` stays below `10^18` and cannot
overflow an `int`. -/
def Atoi.loop : List Nat → Int → Option Int
  | [], n => some n
  | ch :: rest, n =>
    let ch := (ch + 256 - 48) % 256
    if ch > 9 then none else Atoi.loop rest (n * 10 + (ch : Int))

/-- The function `strconv.Atoi`. -/
def Atoi (s : List Nat) : Int × Option NumError :=
  if 0 < s.length ∧ s.length < 19 then
    match s with
    | [] => (0, some NumError.ErrSyntax)
    | c :: cs =>
      let digits := if c = 45 ∨ c = 43 then cs else c :: cs
      if (c = 45 ∨ c = 43) ∧ cs.length < 1 then (0, some NumError.ErrSyntax)
      else
        match Atoi.loop digits 0 with
        | none => (0, some NumError.ErrSyntax)
        | some n => (if c = 45 then -n else n, none)
  else
    ParseInt s

end strconv

/-- The conversion `uint(id)` of an `int`, on a 64-bit platform. -/
def uint (i : Int) : Nat := (i % 2 ^ 64).toNat

/-- The bytes of a text of ASCII characters, for writing inputs down. -/
def ascii (s : String) : List Nat := s.toList.map Char.toNat

/-! ## gin and net/http: what the handlers use of them -/

/-- A JSON value handed to `c.JSON`: a `gin.H` whose values are texts, a
`models.Todo`, or a slice of `models.Todo`. -/
inductive JSON where
  | H (fields : List (String × String))
  | todo (t : Todo)
  | todos (ts : List Todo)
  deriving DecidableEq, Repr

/-- The constant `http.StatusOK`. -/
def StatusOK : Nat := 200

/-- The constant `http.StatusCreated`. -/
def StatusCreated : Nat := 201

/-- The constant `http.StatusBadRequest`. -/
def StatusBadRequest : Nat := 400

/-- The constant `http.StatusNotFound`. -/
def StatusNotFound : Nat := 404

/-- The constant `http.StatusInternalServerError`. -/
def StatusInternalServerError : Nat := 500

/-- What a handler sees of `*gin.Context`: the path parameters of the request,
the outcome of binding the request body into a record (the decoder belongs to
the framework, so the outcome is a datum of the request: the record after
binding, and the decode error if any), and the responses written so far,
oldest first. -/
structure Context where
  Param : String → List Nat
  ShouldBindJSON : Todo → Todo × Option Error
  Written : List (Nat × JSON)

/-- The method `c.JSON(code, obj)`: writes one response. -/
def Context.JSON (c : Context) (code : Nat) (obj : JSON) : Context :=
  { c with Written := c.Written ++ [(code, obj)] }

/-! ## controllers/todo_controller.go -/

/-- The struct `controllers.TodoController`. -/
structure TodoController (σ : Type) where
  service : TodoService σ

/-- The constructor `controllers.NewTodoController`. -/
def NewTodoController {σ : Type} (service : TodoService σ) : TodoController σ :=
  { service := service }

namespace TodoController

variable {σ : Type}

/-- The handler `(*TodoController).GetAllTodos`. -/
def GetAllTodos (ctrl : TodoController σ) (c : Context) (s : σ) : Context × σ :=
  match ctrl.service.GetAllTodos s with
  | ((todos, err), s1) =>
    match err with
    | some _ =>
      (c.JSON StatusInternalServerError (JSON.H [("error", "Erro ao buscar todos os todos")]), s1)
    | none => (c.JSON StatusOK (JSON.todos todos), s1)

/-- The handler `(*TodoController).GetTodoByID`. -/
def GetTodoByID (ctrl : TodoController σ) (c : Context) (s : σ) : Context × σ :=
  let id := (strconv.Atoi (c.Param "id")).1
  match ctrl.service.GetTodoByID (uint id) s with
  | ((todo, err), s1) =>
    match err with
    | some _ => (c.JSON StatusNotFound (JSON.H [("error", "Todo não encontrado")]), s1)
    | none => (c.JSON StatusOK (JSON.todo todo), s1)

/-- The handler `(*TodoController).CreateTodo`. -/
def CreateTodo (ctrl : TodoController σ) (c : Context) (s : σ) : Context × σ :=
  match c.ShouldBindJSON Todo.zero with
  | (_, some err) => (c.JSON StatusBadRequest (JSON.H [("error", err.Error)]), s)
  | (todo, none) =>
    match ctrl.service.CreateTodo todo s with
    | ((createdTodo, err), s1) =>
      match err with
      | some _ =>
        (c.JSON StatusInternalServerError (JSON.H [("error", "Erro ao criar o todo")]), s1)
      | none => (c.JSON StatusCreated (JSON.todo createdTodo), s1)

/-- The handler `(*TodoController).UpdateTodo`. -/
def UpdateTodo (ctrl : TodoController σ) (c : Context) (s : σ) : Context × σ :=
  let id := (strconv.Atoi (c.Param "id")).1
  match c.ShouldBindJSON Todo.zero with
  | (_, some err) => (c.JSON StatusBadRequest (JSON.H [("error", err.Error)]), s)
  | (todo, none) =>
    let todo := { todo with ID := uint id }
    match ctrl.service.UpdateTodo todo s with
    | ((updatedTodo, err), s1) =>
      match err with
      | some _ =>
        (c.JSON StatusInternalServerError (JSON.H [("error", "Erro ao atualizar o todo")]), s1)
      | none => (c.JSON StatusOK (JSON.todo updatedTodo), s1)

/-- The handler `(*TodoController).DeleteTodo`. -/
def DeleteTodo (ctrl : TodoController σ) (c : Context) (s : σ) : Context × σ :=
  let id := (strconv.Atoi (c.Param "id")).1
  match ctrl.service.DeleteTodo (uint id) s with
  | (err, s1) =>
    match err with
    | some _ => (c.JSON StatusNotFound (JSON.H [("error", "Erro ao deletar o todo")]), s1)
    | none => (c.JSON StatusOK (JSON.H [("message", "Todo deletado com sucesso")]), s1)

end TodoController

/-! ## The relational store behind the repository

`repositories/todo_repository.go` issues one statement of the store client
(`gorm.DB`, over sqlite) per method.  The client is a collaborator outside the
repository's sources; its statements are modelled below from the persistence
contract of the specification (sections 3 and 4.1). -/

/-- Modelled from the spec: the relational store client `gorm.DB` (absent from
the sources).  The table of `Todo` rows in insertion order, soft-deleted rows
included, and the reading `now` of the clock for the next statement. -/
structure DB where
  rows : List Todo
  now : Nat
  deriving DecidableEq, Repr

/-- Modelled from the spec: the error of the store client for "no row
matches" (`gorm.ErrRecordNotFound`), the `NotFoundError` of the taxonomy. -/
def ErrRecordNotFound : Error := Error.NotFoundError "record not found"

/-- Modelled from the spec: the rows that the standard read paths see, those
whose `deletedAt` is null ("a soft-deleted row [is] excluded from subsequent
reads"). -/
def DB.live (db : DB) : List Todo :=
  db.rows.filter (fun r => decide (r.DeletedAt = none))

/-- Modelled from the spec: the statement `db.Find(&todos)` of the absent
store client, "returns all non-deleted records". -/
def DB.Find (db : DB) : List Todo × Option Error :=
  (db.live, none)

/-- Modelled from the spec: the statement `db.First(&todo, id)` of the absent
store client, "returns the matching non-deleted record; fails with
`NotFoundError` when no row matches", leaving the destination at its zero
value. -/
def DB.First (db : DB) (id : Nat) : Todo × Option Error :=
  match db.live.filter (fun r => decide (r.ID = id)) with
  | [] => (Todo.zero, some ErrRecordNotFound)
  | r :: _ => (r, none)

/-- Modelled from the spec: the id that the absent store client generates for
the next inserted row, one more than every id in the table (soft-deleted rows
included), hence non-zero and new. -/
def DB.nextID (db : DB) : Nat :=
  (db.rows.map Todo.ID).foldr max 0 + 1

/-- Modelled from the spec: the statement `db.Create(&todo)` of the absent
store client, "inserts a new row, store assigns id and timestamps; returns
the stored record; fails with `StoreError` on constraint failure".  The store
assigns what the record leaves at zero; a record that carries an id of its
own is inserted under that id, which violates the uniqueness constraint when
the table already holds it. -/
def DB.Create (db : DB) (todo : Todo) : (Todo × Option Error) × DB :=
  if todo.ID ≠ 0 ∧ todo.ID ∈ db.rows.map Todo.ID then
    ((todo, some (Error.StoreError "UNIQUE constraint failed: todos.id")), db)
  else
    let row : Todo :=
      { todo with
        ID := if todo.ID = 0 then db.nextID else todo.ID
        CreatedAt := if todo.CreatedAt = 0 then db.now else todo.CreatedAt
        UpdatedAt := if todo.UpdatedAt = 0 then db.now else todo.UpdatedAt }
    ((row, none), { rows := db.rows ++ [row], now := db.now + 1 })

/-- Modelled from the spec: the statement `db.Save(&todo)` of the absent store
client, "full upsert-by-id; if `id` does not exist, behavior is store-defined
(commonly creates a new row)". -/
def DB.Save (db : DB) (todo : Todo) : (Todo × Option Error) × DB :=
  if todo.ID ≠ 0 ∧ todo.ID ∈ db.rows.map Todo.ID then
    let row : Todo := { todo with UpdatedAt := db.now }
    ((row, none),
      { rows := db.rows.map (fun r => if r.ID = todo.ID then row else r), now := db.now + 1 })
  else db.Create todo

/-- Modelled from the spec: the statement `db.Delete(&todo)` of the absent
store client, "marks the row soft-deleted; fails with `StoreError` if the row
is absent". -/
def DB.Delete (db : DB) (todo : Todo) : Option Error × DB :=
  if todo.ID ∈ db.live.map Todo.ID then
    (none,
      { rows := db.rows.map (fun r =>
          if r.ID = todo.ID ∧ r.DeletedAt = none then { r with DeletedAt := some db.now } else r)
        now := db.now + 1 })
  else (some (Error.StoreError "no row to delete"), db)

/-! ## repositories/todo_repository.go: the implementation -/

namespace todoRepository

/-- The method `(*todoRepository).FindAll`. -/
def FindAll (db : DB) : (List Todo × Option Error) × DB :=
  match db.Find with
  | (todos, err) => ((todos, err), db)

/-- The method `(*todoRepository).FindByID`. -/
def FindByID (id : Nat) (db : DB) : (Todo × Option Error) × DB :=
  match db.First id with
  | (todo, err) => ((todo, err), db)

/-- The method `(*todoRepository).Create`. -/
def Create (todo : Todo) (db : DB) : (Todo × Option Error) × DB :=
  match db.Create todo with
  | ((todo, err), db1) => ((todo, err), db1)

/-- The method `(*todoRepository).Update`. -/
def Update (todo : Todo) (db : DB) : (Todo × Option Error) × DB :=
  match db.Save todo with
  | ((todo, err), db1) => ((todo, err), db1)

/-- The method `(*todoRepository).Delete`. -/
def Delete (todo : Todo) (db : DB) : Option Error × DB :=
  db.Delete todo

end todoRepository

/-- The constructor `repositories.NewTodoRepository`; the handle it is given
is the state that the methods act on. -/
def NewTodoRepository : TodoRepository DB :=
  { FindAll := todoRepository.FindAll
    FindByID := todoRepository.FindByID
    Create := todoRepository.Create
    Update := todoRepository.Update
    Delete := todoRepository.Delete }

/-! ## routes/routes.go -/

/-- The controller that `routes.SetupRoutes` wires: repository, then service,
then controller. -/
def SetupRoutes.todoController : TodoController DB :=
  NewTodoController (NewTodoService NewTodoRepository)

/-! ## The test doubles of the test files -/

/-- The double `MockTodoRepository` of `services/todo_service_test.go`, with
the return values programmed for each method. -/
structure MockTodoRepository where
  FindAll : List Todo × Option Error
  FindByID : Nat → Todo × Option Error
  Create : Todo → Todo × Option Error
  Update : Todo → Todo × Option Error
  Delete : Todo → Option Error

/-- The double as a `TodoRepository`; it has no state. -/
def MockTodoRepository.repo (m : MockTodoRepository) : TodoRepository Unit :=
  { FindAll := fun s => (m.FindAll, s)
    FindByID := fun id s => (m.FindByID id, s)
    Create := fun todo s => (m.Create todo, s)
    Update := fun todo s => (m.Update todo, s)
    Delete := fun todo s => (m.Delete todo, s) }

/-- The double `MockTodoService` of `controllers/todo_controller_test.go`,
with the return values programmed for each method. -/
structure MockTodoService where
  GetAllTodos : List Todo × Option Error
  GetTodoByID : Nat → Todo × Option Error
  CreateTodo : Todo → Todo × Option Error
  UpdateTodo : Todo → Todo × Option Error
  DeleteTodo : Nat → Option Error

/-- The double as a `TodoService`; it has no state. -/
def MockTodoService.svc (m : MockTodoService) : TodoService Unit :=
  { GetAllTodos := fun s => (m.GetAllTodos, s)
    GetTodoByID := fun id s => (m.GetTodoByID id, s)
    CreateTodo := fun todo s => (m.CreateTodo todo, s)
    UpdateTodo := fun todo s => (m.UpdateTodo todo, s)
    DeleteTodo := fun id s => (m.DeleteTodo id, s) }

/-- A request as a handler receives it: the path parameter `id`, the outcome of
binding its body, and nothing written yet.  `c.Param` of any other key is the
empty string. -/
def request (id : List Nat) (bind : Todo → Todo × Option Error) : Context :=
  { Param := fun key => if key = "id" then id else []
    ShouldBindJSON := bind
    Written := [] }

/-! ## Sample data -/

/-- A stored record with id 1, not deleted. -/
def sampleTodo : Todo :=
  { ID := 1, CreatedAt := 10, UpdatedAt := 10, DeletedAt := none,
    Title := "Task 1", Description := "", Completed := false }

/-- A store holding `sampleTodo` alone. -/
def sampleDB : DB := { rows := [sampleTodo], now := 11 }

/-- The payload of the body `{"title":"Task 1"}`. -/
def samplePayload : Todo := { Todo.zero with Title := "Task 1" }

/-- A binding outcome: the body decodes to `todo`. -/
def bindOk (todo : Todo) : Todo → Todo × Option Error :=
  fun _ => (todo, none)

/-- A binding outcome: the body does not decode, the decoder reports `msg` and
the record stays as it was. -/
def bindFail (msg : String) : Todo → Todo × Option Error :=
  fun t => (t, some (Error.ValidationError msg))

/-- A `MockTodoService` whose every method fails with the error `e`. -/
def failingService (e : Error) : MockTodoService :=
  { GetAllTodos := ([], some e)
    GetTodoByID := fun _ => (Todo.zero, some e)
    CreateTodo := fun _ => (Todo.zero, some e)
    UpdateTodo := fun _ => (Todo.zero, some e)
    DeleteTodo := fun _ => some e }

/-- A mocked service on which every call fails with a `StoreError`. -/
def lockedService : TodoService Unit :=
  (failingService (Error.StoreError "database is locked")).svc

/-- A mocked service on which every call fails with a `NotFoundError`. -/
def missingService : TodoService Unit :=
  (failingService (Error.NotFoundError "record not found")).svc

/-- The double that `TestGetTodoByID_NotFound` programs: `FindByID` returns the
empty record and an error with the text `not found`.  The test programs no
other method; they are given returns without an error here. -/
def TestGetTodoByID_NotFound.mockRepo : MockTodoRepository :=
  { FindAll := ([], none)
    FindByID := fun _ => (Todo.zero, some (Error.NotFoundError "not found"))
    Create := fun todo => (todo, none)
    Update := fun todo => (todo, none)
    Delete := fun _ => none }

/-! ## Properties of the application service -/

section Service

variable {σ : Type}

/-- C1: for every repository, id and state, `DeleteTodo(id)` begins with
`FindByID(id)`.  If the lookup fails, `DeleteTodo` returns that very error and
the only call made on the repository is the lookup (`Delete` is not invoked).
If the lookup succeeds, the calls are the lookup followed by exactly one
`Delete` of the record the lookup returned, and `DeleteTodo` returns the
result of that `Delete`.  Recording the calls does not change what
`DeleteTodo` does.  On the store, for every id that no live row carries,
`DeleteTodo` fails with the not-found error and leaves the store as it was. -/
theorem C1_DeleteTodo_finds_then_deletes (repo : TodoRepository σ) (id : Nat) (s : σ) :
    (∀ e, (repo.FindByID id s).1.2 = some e →
      (NewTodoService repo.recording).DeleteTodo id (s, [])
        = (some e, ((repo.FindByID id s).2, [RepoCall.FindByID id])))
    ∧ ((repo.FindByID id s).1.2 = none →
      (NewTodoService repo.recording).DeleteTodo id (s, [])
        = ((repo.Delete (repo.FindByID id s).1.1 (repo.FindByID id s).2).1,
            ((repo.Delete (repo.FindByID id s).1.1 (repo.FindByID id s).2).2,
              [RepoCall.FindByID id, RepoCall.Delete (repo.FindByID id s).1.1])))
    ∧ ((NewTodoService repo).DeleteTodo id s
        = (((NewTodoService repo.recording).DeleteTodo id (s, [])).1,
            ((NewTodoService repo.recording).DeleteTodo id (s, [])).2.1))
    ∧ (∀ db : DB, id ∉ db.live.map Todo.ID →
      (NewTodoService NewTodoRepository).DeleteTodo id db = (some ErrRecordNotFound, db)) := by
  refine ⟨?_, ?_, ?_, ?_⟩
  · intro e h
    rcases hf : repo.FindByID id s with ⟨⟨todo, err⟩, s1⟩
    rw [hf] at h
    simp only at h
    subst h
    simp [NewTodoService, todoService.DeleteTodo, TodoRepository.recording, hf]
  · intro h
    rcases hf : repo.FindByID id s with ⟨⟨todo, err⟩, s1⟩
    rw [hf] at h
    simp only at h
    subst h
    simp [NewTodoService, todoService.DeleteTodo, TodoRepository.recording, hf]
  · rcases hf : repo.FindByID id s with ⟨⟨todo, err⟩, s1⟩
    cases err <;>
      simp [NewTodoService, todoService.DeleteTodo, TodoRepository.recording, hf]
  · intro db h
    have hnil : db.live.filter (fun r => decide (r.ID = id)) = [] := by
      rw [List.filter_eq_nil_iff]
      intro r hr hid
      exact h (List.mem_map.mpr ⟨r, hr, by simpa using hid⟩)
    simp [NewTodoService, todoService.DeleteTodo, NewTodoRepository, todoRepository.FindByID,
      DB.First, hnil]

/-- Witness of C1 on the store holding one record with id 1: deleting id 2
stops after the failed lookup, deleting id 1 looks up and then deletes the
record found. -/
theorem C1_DeleteTodo_finds_then_deletes_witness :
    (NewTodoService NewTodoRepository.recording).DeleteTodo 2 (sampleDB, [])
        = (some ErrRecordNotFound, (sampleDB, [RepoCall.FindByID 2]))
    ∧ (NewTodoService NewTodoRepository.recording).DeleteTodo 1 (sampleDB, [])
        = (none, ({ rows := [{ sampleTodo with DeletedAt := some 11 }], now := 12 },
            [RepoCall.FindByID 1, RepoCall.Delete sampleTodo]))
    ∧ (NewTodoService NewTodoRepository).DeleteTodo 2 sampleDB
        = (some ErrRecordNotFound, sampleDB) :=
  ⟨(C1_DeleteTodo_finds_then_deletes NewTodoRepository 2 sampleDB).1 ErrRecordNotFound
      (by decide),
    (C1_DeleteTodo_finds_then_deletes NewTodoRepository 1 sampleDB).2.1 (by decide),
    (C1_DeleteTodo_finds_then_deletes NewTodoRepository 2 sampleDB).2.2.2 sampleDB
      (by decide)⟩

/-- C2: for every repository and every input, `GetAllTodos`, `GetTodoByID`,
`CreateTodo` and `UpdateTodo` each make exactly one call on the repository,
`FindAll`, `FindByID`, `Create` and `Update` respectively, with the argument
unchanged, and return that call's value and error (and leave the state that
call leaves); so when `FindByID` of the mocked repository fails with
`not found`, `GetTodoByID` returns that error and the same empty record. -/
theorem C2_service_delegates (repo : TodoRepository σ) (id : Nat) (todo : Todo) (s : σ) :
    (NewTodoService repo.recording).GetAllTodos (s, [])
        = ((repo.FindAll s).1, ((repo.FindAll s).2, [RepoCall.FindAll]))
    ∧ (NewTodoService repo.recording).GetTodoByID id (s, [])
        = ((repo.FindByID id s).1, ((repo.FindByID id s).2, [RepoCall.FindByID id]))
    ∧ (NewTodoService repo.recording).CreateTodo todo (s, [])
        = ((repo.Create todo s).1, ((repo.Create todo s).2, [RepoCall.Create todo]))
    ∧ (NewTodoService repo.recording).UpdateTodo todo (s, [])
        = ((repo.Update todo s).1, ((repo.Update todo s).2, [RepoCall.Update todo]))
    ∧ (NewTodoService repo).GetAllTodos s = repo.FindAll s
    ∧ (NewTodoService repo).GetTodoByID id s = repo.FindByID id s
    ∧ (NewTodoService repo).CreateTodo todo s = repo.Create todo s
    ∧ (NewTodoService repo).UpdateTodo todo s = repo.Update todo s
    ∧ (NewTodoService TestGetTodoByID_NotFound.mockRepo.repo).GetTodoByID 1 ()
        = ((Todo.zero, some (Error.NotFoundError "not found")), ()) := by
  refine ⟨?_, ?_, ?_, ?_, rfl, rfl, rfl, rfl, rfl⟩ <;>
    simp [NewTodoService, todoService.GetAllTodos, todoService.GetTodoByID,
      todoService.CreateTodo, todoService.UpdateTodo, TodoRepository.recording]

end Service

/-! ## Properties of the request handlers -/

section Handlers

variable {σ : Type}

/-- C3: for every service and every request, when the body decodes (create,
update) and the service call succeeds, the handler writes exactly one
response: list writes 200 with the todos the service returned, get-by-id 200
with the todo, create 201 with the created todo, update 200 with the updated
todo, and delete 200 with a JSON object holding the confirmation `message`. -/
theorem C3_success_responses (svc : TodoService σ) (c : Context) (s : σ) :
    ((svc.GetAllTodos s).1.2 = none →
      ((NewTodoController svc).GetAllTodos c s).1.Written
        = c.Written ++ [(200, JSON.todos (svc.GetAllTodos s).1.1)])
    ∧ ((svc.GetTodoByID (uint (strconv.Atoi (c.Param "id")).1) s).1.2 = none →
      ((NewTodoController svc).GetTodoByID c s).1.Written
        = c.Written
          ++ [(200, JSON.todo (svc.GetTodoByID (uint (strconv.Atoi (c.Param "id")).1) s).1.1)])
    ∧ (∀ todo, c.ShouldBindJSON Todo.zero = (todo, none) →
      (svc.CreateTodo todo s).1.2 = none →
      ((NewTodoController svc).CreateTodo c s).1.Written
        = c.Written ++ [(201, JSON.todo (svc.CreateTodo todo s).1.1)])
    ∧ (∀ todo, c.ShouldBindJSON Todo.zero = (todo, none) →
      (svc.UpdateTodo { todo with ID := uint (strconv.Atoi (c.Param "id")).1 } s).1.2 = none →
      ((NewTodoController svc).UpdateTodo c s).1.Written
        = c.Written ++ [(200, JSON.todo
            (svc.UpdateTodo { todo with ID := uint (strconv.Atoi (c.Param "id")).1 } s).1.1)])
    ∧ ((svc.DeleteTodo (uint (strconv.Atoi (c.Param "id")).1) s).1 = none →
      ((NewTodoController svc).DeleteTodo c s).1.Written
        = c.Written ++ [(200, JSON.H [("message", "Todo deletado com sucesso")])]) := by
  refine ⟨?_, ?_, ?_, ?_, ?_⟩
  · intro h
    rcases hs : svc.GetAllTodos s with ⟨⟨todos, err⟩, s1⟩
    rw [hs] at h
    simp only at h
    subst h
    simp [NewTodoController, TodoController.GetAllTodos, Context.JSON, hs, StatusOK]
  · intro h
    rcases hs : svc.GetTodoByID (uint (strconv.Atoi (c.Param "id")).1) s
      with ⟨⟨todo, err⟩, s1⟩
    rw [hs] at h
    simp only at h
    subst h
    simp [NewTodoController, TodoController.GetTodoByID, Context.JSON, hs, StatusOK]
  · intro todo hb h
    rcases hs : svc.CreateTodo todo s with ⟨⟨created, err⟩, s1⟩
    rw [hs] at h
    simp only at h
    subst h
    simp [NewTodoController, TodoController.CreateTodo, Context.JSON, hb, hs, StatusCreated]
  · intro todo hb h
    rcases hs : svc.UpdateTodo { todo with ID := uint (strconv.Atoi (c.Param "id")).1 } s
      with ⟨⟨updated, err⟩, s1⟩
    rw [hs] at h
    simp only at h
    subst h
    simp [NewTodoController, TodoController.UpdateTodo, Context.JSON, hb, hs, StatusOK]
  · intro h
    rcases hs : svc.DeleteTodo (uint (strconv.Atoi (c.Param "id")).1) s with ⟨err, s1⟩
    rw [hs] at h
    simp only at h
    subst h
    simp [NewTodoController, TodoController.DeleteTodo, Context.JSON, hs, StatusOK]

/-- Witness of C3 on the wired application over the store holding one record
with id 1: the five handlers on requests for id 1 with the body
`{"title":"Task 1"}`. -/
theorem C3_success_responses_witness :
    ((NewTodoController (NewTodoService NewTodoRepository)).GetAllTodos
        (request (ascii "1") (bindOk samplePayload)) sampleDB).1.Written
      = [(200, JSON.todos [sampleTodo])]
    ∧ ((NewTodoController (NewTodoService NewTodoRepository)).GetTodoByID
        (request (ascii "1") (bindOk samplePayload)) sampleDB).1.Written
      = [(200, JSON.todo sampleTodo)]
    ∧ ((NewTodoController (NewTodoService NewTodoRepository)).CreateTodo
        (request (ascii "1") (bindOk samplePayload)) sampleDB).1.Written
      = [(201, JSON.todo { samplePayload with ID := 2, CreatedAt := 11, UpdatedAt := 11 })]
    ∧ ((NewTodoController (NewTodoService NewTodoRepository)).UpdateTodo
        (request (ascii "1") (bindOk samplePayload)) sampleDB).1.Written
      = [(200, JSON.todo { samplePayload with ID := 1, UpdatedAt := 11 })]
    ∧ ((NewTodoController (NewTodoService NewTodoRepository)).DeleteTodo
        (request (ascii "1") (bindOk samplePayload)) sampleDB).1.Written
      = [(200, JSON.H [("message", "Todo deletado com sucesso")])] :=
  ⟨(C3_success_responses (NewTodoService NewTodoRepository)
      (request (ascii "1") (bindOk samplePayload)) sampleDB).1 (by decide),
    (C3_success_responses (NewTodoService NewTodoRepository)
      (request (ascii "1") (bindOk samplePayload)) sampleDB).2.1 (by decide),
    (C3_success_responses (NewTodoService NewTodoRepository)
      (request (ascii "1") (bindOk samplePayload)) sampleDB).2.2.1 samplePayload rfl
      (by decide),
    (C3_success_responses (NewTodoService NewTodoRepository)
      (request (ascii "1") (bindOk samplePayload)) sampleDB).2.2.2.1 samplePayload rfl
      (by decide),
    (C3_success_responses (NewTodoService NewTodoRepository)
      (request (ascii "1") (bindOk samplePayload)) sampleDB).2.2.2.2 (by decide)⟩

/-- C4, refuted as stated: when the service fails with a `StoreError` (a
failure of the store that is not "no matching row"), the get-by-id handler
and the delete handler answer 404, not 500; and when the service fails with a
`NotFoundError`, the update handler answers 500, not 404. -/
theorem C4_counterexample :
    (((NewTodoController lockedService).GetTodoByID
        (request (ascii "1") (bindOk samplePayload)) ()).1.Written.map Prod.fst = [404]
      ∧ ((NewTodoController lockedService).DeleteTodo
        (request (ascii "1") (bindOk samplePayload)) ()).1.Written.map Prod.fst = [404]
      ∧ ((NewTodoController missingService).UpdateTodo
        (request (ascii "1") (bindOk samplePayload)) ()).1.Written.map Prod.fst = [500])
    ∧ ¬ (((NewTodoController lockedService).GetTodoByID
          (request (ascii "1") (bindOk samplePayload)) ()).1.Written.map Prod.fst = [500]) := by
  decide

/-- C4, amended: the status of a failure is fixed by the handler, whatever the
class of the error.  A body that does not decode gives 400 on create and
update, with the decode error's text.  An error returned by the service, of
any class, gives 500 on list, create and update, and 404 on get-by-id and
delete.  In every failure case exactly one response is written and its body
is a JSON object with the single field `error`, a text. -/
theorem C4_failure_status_fixed_per_handler (svc : TodoService σ) (c : Context) (s : σ) :
    (∀ e, (svc.GetAllTodos s).1.2 = some e →
      ((NewTodoController svc).GetAllTodos c s).1.Written
        = c.Written ++ [(500, JSON.H [("error", "Erro ao buscar todos os todos")])])
    ∧ (∀ e, (svc.GetTodoByID (uint (strconv.Atoi (c.Param "id")).1) s).1.2 = some e →
      ((NewTodoController svc).GetTodoByID c s).1.Written
        = c.Written ++ [(404, JSON.H [("error", "Todo não encontrado")])])
    ∧ (∀ t e, c.ShouldBindJSON Todo.zero = (t, some e) →
      ((NewTodoController svc).CreateTodo c s).1.Written
          = c.Written ++ [(400, JSON.H [("error", e.Error)])]
        ∧ ((NewTodoController svc).UpdateTodo c s).1.Written
          = c.Written ++ [(400, JSON.H [("error", e.Error)])])
    ∧ (∀ todo e, c.ShouldBindJSON Todo.zero = (todo, none) →
      (svc.CreateTodo todo s).1.2 = some e →
      ((NewTodoController svc).CreateTodo c s).1.Written
        = c.Written ++ [(500, JSON.H [("error", "Erro ao criar o todo")])])
    ∧ (∀ todo e, c.ShouldBindJSON Todo.zero = (todo, none) →
      (svc.UpdateTodo { todo with ID := uint (strconv.Atoi (c.Param "id")).1 } s).1.2 = some e →
      ((NewTodoController svc).UpdateTodo c s).1.Written
        = c.Written ++ [(500, JSON.H [("error", "Erro ao atualizar o todo")])])
    ∧ (∀ e, (svc.DeleteTodo (uint (strconv.Atoi (c.Param "id")).1) s).1 = some e →
      ((NewTodoController svc).DeleteTodo c s).1.Written
        = c.Written ++ [(404, JSON.H [("error", "Erro ao deletar o todo")])]) := by
  refine ⟨?_, ?_, ?_, ?_, ?_, ?_⟩
  · intro e h
    rcases hs : svc.GetAllTodos s with ⟨⟨todos, err⟩, s1⟩
    rw [hs] at h
    simp only at h
    subst h
    simp [NewTodoController, TodoController.GetAllTodos, Context.JSON, hs,
      StatusInternalServerError]
  · intro e h
    rcases hs : svc.GetTodoByID (uint (strconv.Atoi (c.Param "id")).1) s
      with ⟨⟨todo, err⟩, s1⟩
    rw [hs] at h
    simp only at h
    subst h
    simp [NewTodoController, TodoController.GetTodoByID, Context.JSON, hs, StatusNotFound]
  · intro t e hb
    simp [NewTodoController, TodoController.CreateTodo, TodoController.UpdateTodo,
      Context.JSON, hb, StatusBadRequest]
  · intro todo e hb h
    rcases hs : svc.CreateTodo todo s with ⟨⟨created, err⟩, s1⟩
    rw [hs] at h
    simp only at h
    subst h
    simp [NewTodoController, TodoController.CreateTodo, Context.JSON, hb, hs,
      StatusInternalServerError]
  · intro todo e hb h
    rcases hs : svc.UpdateTodo { todo with ID := uint (strconv.Atoi (c.Param "id")).1 } s
      with ⟨⟨updated, err⟩, s1⟩
    rw [hs] at h
    simp only at h
    subst h
    simp [NewTodoController, TodoController.UpdateTodo, Context.JSON, hb, hs,
      StatusInternalServerError]
  · intro e h
    rcases hs : svc.DeleteTodo (uint (strconv.Atoi (c.Param "id")).1) s with ⟨err, s1⟩
    rw [hs] at h
    simp only at h
    subst h
    simp [NewTodoController, TodoController.DeleteTodo, Context.JSON, hs, StatusNotFound]

/-- Witness of the amended C4: a service failing with a `StoreError` behind
each handler, and a body that does not decode on create and update. -/
theorem C4_failure_status_fixed_per_handler_witness :
    ((NewTodoController lockedService).GetAllTodos
        (request (ascii "1") (bindOk samplePayload)) ()).1.Written
      = [(500, JSON.H [("error", "Erro ao buscar todos os todos")])]
    ∧ ((NewTodoController lockedService).GetTodoByID
        (request (ascii "1") (bindOk samplePayload)) ()).1.Written
      = [(404, JSON.H [("error", "Todo não encontrado")])]
    ∧ (((NewTodoController lockedService).CreateTodo
          (request (ascii "1") (bindFail "unexpected EOF")) ()).1.Written
        = [(400, JSON.H [("error", "unexpected EOF")])]
      ∧ ((NewTodoController lockedService).UpdateTodo
          (request (ascii "1") (bindFail "unexpected EOF")) ()).1.Written
        = [(400, JSON.H [("error", "unexpected EOF")])])
    ∧ ((NewTodoController lockedService).CreateTodo
        (request (ascii "1") (bindOk samplePayload)) ()).1.Written
      = [(500, JSON.H [("error", "Erro ao criar o todo")])]
    ∧ ((NewTodoController lockedService).UpdateTodo
        (request (ascii "1") (bindOk samplePayload)) ()).1.Written
      = [(500, JSON.H [("error", "Erro ao atualizar o todo")])]
    ∧ ((NewTodoController lockedService).DeleteTodo
        (request (ascii "1") (bindOk samplePayload)) ()).1.Written
      = [(404, JSON.H [("error", "Erro ao deletar o todo")])] :=
  ⟨(C4_failure_status_fixed_per_handler lockedService
      (request (ascii "1") (bindOk samplePayload)) ()).1 _ rfl,
    (C4_failure_status_fixed_per_handler lockedService
      (request (ascii "1") (bindOk samplePayload)) ()).2.1 _ rfl,
    (C4_failure_status_fixed_per_handler lockedService
      (request (ascii "1") (bindFail "unexpected EOF")) ()).2.2.1 _ _ rfl,
    (C4_failure_status_fixed_per_handler lockedService
      (request (ascii "1") (bindOk samplePayload)) ()).2.2.2.1 _ _ rfl rfl,
    (C4_failure_status_fixed_per_handler lockedService
      (request (ascii "1") (bindOk samplePayload)) ()).2.2.2.2.1 _ _ rfl rfl,
    (C4_failure_status_fixed_per_handler lockedService
      (request (ascii "1") (bindOk samplePayload)) ()).2.2.2.2.2 _ rfl⟩

/-- C5: for every create or update request whose body does not decode, the
handler writes exactly one response, 400 with a JSON object whose `error`
field is the text of the decode error, and makes no call on the service, whose
state stays as it was. -/
theorem C5_decode_failure_is_400 (svc : TodoService σ) (c : Context) (s : σ) (t : Todo)
    (e : Error) (hb : c.ShouldBindJSON Todo.zero = (t, some e)) :
    (NewTodoController svc.recording).CreateTodo c (s, [])
        = ({ c with Written := c.Written ++ [(400, JSON.H [("error", e.Error)])] }, (s, []))
    ∧ (NewTodoController svc.recording).UpdateTodo c (s, [])
        = ({ c with Written := c.Written ++ [(400, JSON.H [("error", e.Error)])] }, (s, [])) := by
  simp [NewTodoController, TodoController.CreateTodo, TodoController.UpdateTodo,
    Context.JSON, hb, StatusBadRequest]

/-- Witness of C5: a malformed body sent to the wired application for create
and for update; the store is not touched. -/
theorem C5_decode_failure_is_400_witness :
    (((NewTodoController (NewTodoService NewTodoRepository).recording).CreateTodo
        (request (ascii "1") (bindFail "unexpected EOF")) (sampleDB, [])).1.Written
        = [(400, JSON.H [("error", "unexpected EOF")])]
      ∧ ((NewTodoController (NewTodoService NewTodoRepository).recording).CreateTodo
        (request (ascii "1") (bindFail "unexpected EOF")) (sampleDB, [])).2 = (sampleDB, []))
    ∧ (((NewTodoController (NewTodoService NewTodoRepository).recording).UpdateTodo
        (request (ascii "1") (bindFail "unexpected EOF")) (sampleDB, [])).1.Written
        = [(400, JSON.H [("error", "unexpected EOF")])]
      ∧ ((NewTodoController (NewTodoService NewTodoRepository).recording).UpdateTodo
        (request (ascii "1") (bindFail "unexpected EOF")) (sampleDB, [])).2 = (sampleDB, [])) :=
  have h := C5_decode_failure_is_400 (NewTodoService NewTodoRepository)
    (request (ascii "1") (bindFail "unexpected EOF")) sampleDB Todo.zero
    (Error.ValidationError "unexpected EOF") rfl
  ⟨⟨congrArg (fun r => r.1.Written) h.1, congrArg Prod.snd h.1⟩,
    ⟨congrArg (fun r => r.1.Written) h.2, congrArg Prod.snd h.2⟩⟩

end Handlers


/-! ## Facts about `strconv.Atoi` -/

namespace strconv

/-- A syntax error of `ParseInt` comes with the value 0. -/
theorem ParseInt_syntax_zero (s : List Nat) (h : (ParseInt s).2 = some NumError.ErrSyntax) :
    (ParseInt s).1 = 0 := by
  unfold ParseInt at h ⊢
  cases s with
  | nil => rfl
  | cons c cs =>
    simp only at h ⊢
    rcases hp : ParseUint (if c = 43 then cs else if c = 45 then cs else c :: cs) with ⟨un, err⟩
    rw [hp] at h
    simp only at h ⊢
    split_ifs at h ⊢ <;> simp_all

/-- A range error of `ParseInt` comes with the greatest or the least `int64`. -/
theorem ParseInt_range_clamped (s : List Nat) (h : (ParseInt s).2 = some NumError.ErrRange) :
    (ParseInt s).1 = 2 ^ 63 - 1 ∨ (ParseInt s).1 = -2 ^ 63 := by
  unfold ParseInt at h ⊢
  cases s with
  | nil => simp at h
  | cons c cs =>
    simp only at h ⊢
    rcases hp : ParseUint (if c = 43 then cs else if c = 45 then cs else c :: cs) with ⟨un, err⟩
    rw [hp] at h
    simp only at h ⊢
    split_ifs at h ⊢ <;> simp_all [IntSize]

/-- A syntax error of `Atoi` comes with the value 0. -/
theorem Atoi_syntax_zero (s : List Nat) (h : (Atoi s).2 = some NumError.ErrSyntax) :
    (Atoi s).1 = 0 := by
  unfold Atoi at h ⊢
  split_ifs at h ⊢ with hlen
  · cases s with
    | nil => rfl
    | cons c cs =>
      simp only at h ⊢
      generalize Atoi.loop (if c = 45 ∨ c = 43 then cs else c :: cs) 0 = r at h ⊢
      cases r <;> split_ifs at h ⊢ <;> simp_all
  · exact ParseInt_syntax_zero s h

/-- A range error of `Atoi` comes with the greatest or the least `int`. -/
theorem Atoi_range_clamped (s : List Nat) (h : (Atoi s).2 = some NumError.ErrRange) :
    (Atoi s).1 = 2 ^ 63 - 1 ∨ (Atoi s).1 = -2 ^ 63 := by
  unfold Atoi at h ⊢
  split_ifs at h ⊢ with hlen
  · cases s with
    | nil => simp at h
    | cons c cs =>
      simp only at h ⊢
      generalize Atoi.loop (if c = 45 ∨ c = 43 then cs else c :: cs) 0 = r at h ⊢
      cases r <;> split_ifs at h ⊢ <;> simp_all
  · exact ParseInt_range_clamped s h


/-- The fast path stops with a syntax error on a byte that is not a digit. -/
theorem Atoi_loop_none (l : List Nat) (n : Int) (hb : ∀ b ∈ l, b < 256)
    (h : ∃ b ∈ l, ¬ (48 ≤ b ∧ b ≤ 57)) : Atoi.loop l n = none := by
  induction l generalizing n with
  | nil => simp at h
  | cons ch rest ih =>
    have hch : ch < 256 := hb ch (List.mem_cons_self _ _)
    by_cases hd : 48 ≤ ch ∧ ch ≤ 57
    · have hnot : ¬ ((ch + 256 - 48) % 256 > 9) := by omega
      have hrest : ∃ b ∈ rest, ¬ (48 ≤ b ∧ b ≤ 57) := by
        rcases h with ⟨b, hmem, hbd⟩
        rcases List.mem_cons.mp hmem with rfl | hmem
        · exact absurd hd hbd
        · exact ⟨b, hmem, hbd⟩
      simp only [Atoi.loop, hnot, if_false]
      exact ih _ (fun b hmem => hb b (List.mem_cons_of_mem _ hmem)) hrest
    · have hgt : (ch + 256 - 48) % 256 > 9 := by omega
      simp only [Atoi.loop, hgt, if_true]

/-- On fewer than 19 bytes, `Atoi` reports a syntax error with value 0 for
every text that is not an optional sign followed by one or more digits. -/
theorem Atoi_not_numeral (p : List Nat) (hb : ∀ b ∈ p, b < 256) (hlen : p.length < 19)
    (h : p = [] ∨ p = [43] ∨ p = [45]
      ∨ (∃ b ∈ p.tail, ¬ (48 ≤ b ∧ b ≤ 57))
      ∨ (∃ b, p.head? = some b ∧ ¬ (48 ≤ b ∧ b ≤ 57) ∧ b ≠ 43 ∧ b ≠ 45)) :
    Atoi p = (0, some NumError.ErrSyntax) := by
  cases p with
  | nil => rfl
  | cons c cs =>
    have hguard : 0 < (c :: cs).length ∧ (c :: cs).length < 19 := ⟨by simp, hlen⟩
    have hcs : ∀ b ∈ cs, b < 256 := fun b hmem => hb b (List.mem_cons_of_mem _ hmem)
    simp only [Atoi, hguard, and_self, if_true]
    rcases h with h | h | h | h | h
    · simp at h
    · obtain ⟨rfl, rfl⟩ : c = 43 ∧ cs = [] := by simpa using h
      simp
    · obtain ⟨rfl, rfl⟩ : c = 45 ∧ cs = [] := by simpa using h
      simp
    · simp only [List.tail_cons] at h
      by_cases hsign : c = 45 ∨ c = 43
      · have hne : ¬ cs.length < 1 := by
          rcases h with ⟨b, hmem, _⟩
          cases cs with
          | nil => simp at hmem
          | cons _ _ => simp
        simp [hsign, hne, Atoi_loop_none cs 0 hcs h]
      · have h2 : ∃ b ∈ c :: cs, ¬ (48 ≤ b ∧ b ≤ 57) := by
          rcases h with ⟨b, hmem, hbd⟩
          exact ⟨b, List.mem_cons_of_mem _ hmem, hbd⟩
        simp [hsign, Atoi_loop_none (c :: cs) 0 hb h2]
    · rcases h with ⟨b, hhead, hbd, h43, h45⟩
      obtain rfl : c = b := by simpa using hhead
      have hsign : ¬ (c = 45 ∨ c = 43) := by omega
      have h2 : ∃ b ∈ c :: cs, ¬ (48 ≤ b ∧ b ≤ 57) :=
        ⟨c, List.mem_cons_self _ _, hbd⟩
      simp [hsign, Atoi_loop_none (c :: cs) 0 hb h2]

end strconv


/-! ## The path parameter -/

section PathParameter

variable {σ : Type}

/-- C6: get-by-id answers a failed lookup with exactly one response, status
404 and the JSON object `{"error":"Todo não encontrado"}`, the same for every
service, every id and every error the service returns; on the wired
application, for every store and every request whose id no live row carries,
that is the response and the store stays as it was. -/
theorem C6_get_missing_is_404 (svc : TodoService σ) (c : Context) (s : σ) :
    (∀ e, (svc.GetTodoByID (uint (strconv.Atoi (c.Param "id")).1) s).1.2 = some e →
      ((NewTodoController svc).GetTodoByID c s).1.Written
        = c.Written ++ [(404, JSON.H [("error", "Todo não encontrado")])])
    ∧ (∀ db : DB, uint (strconv.Atoi (c.Param "id")).1 ∉ db.live.map Todo.ID →
      SetupRoutes.todoController.GetTodoByID c db
        = ({ c with Written := c.Written ++ [(404, JSON.H [("error", "Todo não encontrado")])] },
            db)) := by
  refine ⟨?_, ?_⟩
  · intro e h
    rcases hs : svc.GetTodoByID (uint (strconv.Atoi (c.Param "id")).1) s
      with ⟨⟨todo, err⟩, s1⟩
    rw [hs] at h
    simp only at h
    subst h
    simp [NewTodoController, TodoController.GetTodoByID, Context.JSON, hs, StatusNotFound]
  · intro db h
    have hnil : db.live.filter
        (fun r => decide (r.ID = uint (strconv.Atoi (c.Param "id")).1)) = [] := by
      rw [List.filter_eq_nil_iff]
      intro r hr hid
      exact h (List.mem_map.mpr ⟨r, hr, by simpa using hid⟩)
    simp [SetupRoutes.todoController, NewTodoController, TodoController.GetTodoByID,
      NewTodoService, todoService.GetTodoByID, NewTodoRepository, todoRepository.FindByID,
      DB.First, hnil, Context.JSON, StatusNotFound]

/-- Witness of C6: `GET /todos/999999` on the store holding one record with
id 1, and a mocked service failing with another error. -/
theorem C6_get_missing_is_404_witness :
    ((NewTodoController lockedService).GetTodoByID
        (request (ascii "999999") (bindOk samplePayload)) ()).1.Written
      = [(404, JSON.H [("error", "Todo não encontrado")])]
    ∧ (SetupRoutes.todoController.GetTodoByID
        (request (ascii "999999") (bindOk samplePayload)) sampleDB).1.Written
      = [(404, JSON.H [("error", "Todo não encontrado")])] :=
  ⟨(C6_get_missing_is_404 lockedService
      (request (ascii "999999") (bindOk samplePayload)) ()).1 _ rfl,
    congrArg (fun r => r.1.Written)
      ((C6_get_missing_is_404 lockedService
        (request (ascii "999999") (bindOk samplePayload)) ()).2 sampleDB (by decide))⟩

/-- C7, refuted as stated: the negative id `-5` is not passed on as 0, the
handlers call the service with id 18446744073709551611; and the out-of-range
id `9223372036854775808` reaches the service as 9223372036854775807. -/
theorem C7_counterexample :
    (((NewTodoController (NewTodoService NewTodoRepository).recording).GetTodoByID
        (request (ascii "-5") (bindOk samplePayload)) (sampleDB, [])).2.2
        = [ServiceCall.GetTodoByID 18446744073709551611]
      ∧ ((NewTodoController (NewTodoService NewTodoRepository).recording).DeleteTodo
        (request (ascii "-5") (bindOk samplePayload)) (sampleDB, [])).2.2
        = [ServiceCall.DeleteTodo 18446744073709551611]
      ∧ ((NewTodoController (NewTodoService NewTodoRepository).recording).UpdateTodo
        (request (ascii "-5") (bindOk samplePayload)) (sampleDB, [])).2.2
        = [ServiceCall.UpdateTodo { samplePayload with ID := 18446744073709551611 }]
      ∧ ((NewTodoController (NewTodoService NewTodoRepository).recording).GetTodoByID
        (request (ascii "9223372036854775808") (bindOk samplePayload)) (sampleDB, [])).2.2
        = [ServiceCall.GetTodoByID 9223372036854775807])
    ∧ ¬ (((NewTodoController (NewTodoService NewTodoRepository).recording).GetTodoByID
        (request (ascii "-5") (bindOk samplePayload)) (sampleDB, [])).2.2
        = [ServiceCall.GetTodoByID 0]) := by
  decide

/-- C7, amended: the path parameter `id` is parsed by `strconv.Atoi` as a
signed integer, the error of the parse is discarded, and the value is
converted to an unsigned integer.  The get-by-id, update and delete handlers
never reject a request on account of its id: each calls the service exactly
once with the converted value.  For every id text on which the parse reports
a syntax error that value is 0; such are, among the texts of fewer than 19
bytes, the empty text, a lone sign, and every text with a byte other than a
digit after the place of the sign.  For a range error the value is the
clamped one, 2^63 - 1 or 2^63. -/
theorem C7_id_parse_error_discarded (svc : TodoService σ) (c : Context) (s : σ) :
    ((NewTodoController svc.recording).GetTodoByID c (s, [])).2.2
        = [ServiceCall.GetTodoByID (uint (strconv.Atoi (c.Param "id")).1)]
    ∧ ((NewTodoController svc.recording).DeleteTodo c (s, [])).2.2
        = [ServiceCall.DeleteTodo (uint (strconv.Atoi (c.Param "id")).1)]
    ∧ (∀ todo, c.ShouldBindJSON Todo.zero = (todo, none) →
      ((NewTodoController svc.recording).UpdateTodo c (s, [])).2.2
        = [ServiceCall.UpdateTodo { todo with ID := uint (strconv.Atoi (c.Param "id")).1 }])
    ∧ ((strconv.Atoi (c.Param "id")).2 = some strconv.NumError.ErrSyntax →
      ((NewTodoController svc.recording).GetTodoByID c (s, [])).2.2
          = [ServiceCall.GetTodoByID 0]
        ∧ ((NewTodoController svc.recording).DeleteTodo c (s, [])).2.2
          = [ServiceCall.DeleteTodo 0]
        ∧ (∀ todo, c.ShouldBindJSON Todo.zero = (todo, none) →
          ((NewTodoController svc.recording).UpdateTodo c (s, [])).2.2
            = [ServiceCall.UpdateTodo { todo with ID := 0 }]))
    ∧ ((strconv.Atoi (c.Param "id")).2 = some strconv.NumError.ErrRange →
      uint (strconv.Atoi (c.Param "id")).1 = 2 ^ 63 - 1
        ∨ uint (strconv.Atoi (c.Param "id")).1 = 2 ^ 63)
    ∧ ((∀ b ∈ c.Param "id", b < 256) → (c.Param "id").length < 19 →
      (c.Param "id" = [] ∨ c.Param "id" = [43] ∨ c.Param "id" = [45]
        ∨ (∃ b ∈ (c.Param "id").tail, ¬ (48 ≤ b ∧ b ≤ 57))
        ∨ (∃ b, (c.Param "id").head? = some b
            ∧ ¬ (48 ≤ b ∧ b ≤ 57) ∧ b ≠ 43 ∧ b ≠ 45)) →
      strconv.Atoi (c.Param "id") = (0, some strconv.NumError.ErrSyntax)) := by
  have hget : ((NewTodoController svc.recording).GetTodoByID c (s, [])).2.2
      = [ServiceCall.GetTodoByID (uint (strconv.Atoi (c.Param "id")).1)] := by
    rcases hs : svc.GetTodoByID (uint (strconv.Atoi (c.Param "id")).1) s
      with ⟨⟨todo, err⟩, s1⟩
    cases err <;>
      simp [NewTodoController, TodoController.GetTodoByID, TodoService.recording, hs]
  have hdel : ((NewTodoController svc.recording).DeleteTodo c (s, [])).2.2
      = [ServiceCall.DeleteTodo (uint (strconv.Atoi (c.Param "id")).1)] := by
    rcases hs : svc.DeleteTodo (uint (strconv.Atoi (c.Param "id")).1) s with ⟨err, s1⟩
    cases err <;>
      simp [NewTodoController, TodoController.DeleteTodo, TodoService.recording, hs]
  have hupd : ∀ todo, c.ShouldBindJSON Todo.zero = (todo, none) →
      ((NewTodoController svc.recording).UpdateTodo c (s, [])).2.2
        = [ServiceCall.UpdateTodo { todo with ID := uint (strconv.Atoi (c.Param "id")).1 }] := by
    intro todo hb
    rcases hs : svc.UpdateTodo { todo with ID := uint (strconv.Atoi (c.Param "id")).1 } s
      with ⟨⟨updated, err⟩, s1⟩
    cases err <;>
      simp [NewTodoController, TodoController.UpdateTodo, TodoService.recording, hb, hs]
  refine ⟨hget, hdel, hupd, ?_, ?_, ?_⟩
  · intro hsyn
    have h0 : uint (strconv.Atoi (c.Param "id")).1 = 0 := by
      rw [strconv.Atoi_syntax_zero _ hsyn]
      rfl
    rw [h0] at hget hdel hupd
    exact ⟨hget, hdel, hupd⟩
  · intro hrange
    rcases strconv.Atoi_range_clamped _ hrange with h | h
    · left
      rw [h]
      decide
    · right
      rw [h]
      decide
  · intro hb hlen h
    exact strconv.Atoi_not_numeral _ hb hlen h

/-- Witness of the amended C7: the id `abc` on the wired application reaches
the service as 0 in the three handlers, and the id `9223372036854775808`
reports a range error. -/
theorem C7_id_parse_error_discarded_witness :
    (((NewTodoController (NewTodoService NewTodoRepository).recording).GetTodoByID
        (request (ascii "abc") (bindOk samplePayload)) (sampleDB, [])).2.2
        = [ServiceCall.GetTodoByID 0]
      ∧ ((NewTodoController (NewTodoService NewTodoRepository).recording).DeleteTodo
        (request (ascii "abc") (bindOk samplePayload)) (sampleDB, [])).2.2
        = [ServiceCall.DeleteTodo 0]
      ∧ ((NewTodoController (NewTodoService NewTodoRepository).recording).UpdateTodo
        (request (ascii "abc") (bindOk samplePayload)) (sampleDB, [])).2.2
        = [ServiceCall.UpdateTodo { samplePayload with ID := 0 }])
    ∧ (uint (strconv.Atoi (ascii "9223372036854775808")).1 = 2 ^ 63 - 1
      ∨ uint (strconv.Atoi (ascii "9223372036854775808")).1 = 2 ^ 63)
    ∧ strconv.Atoi (ascii "abc") = (0, some strconv.NumError.ErrSyntax) :=
  ⟨⟨((C7_id_parse_error_discarded (NewTodoService NewTodoRepository)
        (request (ascii "abc") (bindOk samplePayload)) sampleDB).2.2.2.1 (by decide)).1,
      ((C7_id_parse_error_discarded (NewTodoService NewTodoRepository)
        (request (ascii "abc") (bindOk samplePayload)) sampleDB).2.2.2.1 (by decide)).2.1,
      ((C7_id_parse_error_discarded (NewTodoService NewTodoRepository)
        (request (ascii "abc") (bindOk samplePayload)) sampleDB).2.2.2.1 (by decide)).2.2
        samplePayload rfl⟩,
    (C7_id_parse_error_discarded (NewTodoService NewTodoRepository)
      (request (ascii "9223372036854775808") (bindOk samplePayload)) sampleDB).2.2.2.2.1
      (by decide),
    (C7_id_parse_error_discarded (NewTodoService NewTodoRepository)
      (request (ascii "abc") (bindOk samplePayload)) sampleDB).2.2.2.2.2
      (by decide) (by decide) (by decide)⟩

/-- C10: for every update request whose body decodes, the handler calls the
service exactly once, with `UpdateTodo` of a record whose id is the id read
from the path parameter, whatever id the body carried, and whose title,
description, completed flag and timestamps are those decoded from the body;
when that call fails the handler writes 500. -/
theorem C10_update_id_from_path (svc : TodoService σ) (c : Context) (s : σ) (todo : Todo)
    (hb : c.ShouldBindJSON Todo.zero = (todo, none)) :
    ∃ passed : Todo,
      ((NewTodoController svc.recording).UpdateTodo c (s, [])).2.2
          = [ServiceCall.UpdateTodo passed]
      ∧ ((NewTodoController svc.recording).UpdateTodo c (s, [])).2.1
          = (svc.UpdateTodo passed s).2
      ∧ passed.ID = uint (strconv.Atoi (c.Param "id")).1
      ∧ passed.Title = todo.Title
      ∧ passed.Description = todo.Description
      ∧ passed.Completed = todo.Completed
      ∧ passed.CreatedAt = todo.CreatedAt
      ∧ passed.UpdatedAt = todo.UpdatedAt
      ∧ passed.DeletedAt = todo.DeletedAt
      ∧ ((svc.UpdateTodo passed s).1.2 ≠ none →
        ((NewTodoController svc.recording).UpdateTodo c (s, [])).1.Written
          = c.Written ++ [(500, JSON.H [("error", "Erro ao atualizar o todo")])]) := by
  refine ⟨{ todo with ID := uint (strconv.Atoi (c.Param "id")).1 }, ?_, ?_, rfl, rfl, rfl, rfl,
    rfl, rfl, rfl, ?_⟩
  · rcases hs : svc.UpdateTodo { todo with ID := uint (strconv.Atoi (c.Param "id")).1 } s
      with ⟨⟨updated, err⟩, s1⟩
    cases err <;>
      simp [NewTodoController, TodoController.UpdateTodo, TodoService.recording, hb, hs]
  · rcases hs : svc.UpdateTodo { todo with ID := uint (strconv.Atoi (c.Param "id")).1 } s
      with ⟨⟨updated, err⟩, s1⟩
    cases err <;>
      simp [NewTodoController, TodoController.UpdateTodo, TodoService.recording, hb, hs]
  · intro h
    rcases hs : svc.UpdateTodo { todo with ID := uint (strconv.Atoi (c.Param "id")).1 } s
      with ⟨⟨updated, err⟩, s1⟩
    rw [hs] at h
    cases err with
    | none => exact absurd rfl h
    | some e =>
      simp [NewTodoController, TodoController.UpdateTodo, TodoService.recording, Context.JSON,
        hb, hs, StatusInternalServerError]

/-- Witness of C10: `PUT /todos/7` with a body that carries id 99 and the
title `Task 1`; the service receives id 7 and the title of the body. -/
theorem C10_update_id_from_path_witness :
    ∃ passed : Todo,
      ((NewTodoController (NewTodoService NewTodoRepository).recording).UpdateTodo
          (request (ascii "7") (bindOk { samplePayload with ID := 99 })) (sampleDB, [])).2.2
        = [ServiceCall.UpdateTodo passed]
      ∧ passed.ID = 7 ∧ passed.Title = "Task 1" :=
  (C10_update_id_from_path (NewTodoService NewTodoRepository)
      (request (ascii "7") (bindOk { samplePayload with ID := 99 })) sampleDB
      { samplePayload with ID := 99 } rfl).imp
    fun _ h => ⟨h.1, h.2.2.1.trans (by decide), h.2.2.2.1.trans (by decide)⟩

end PathParameter

/-! ## Properties of the store behind the repository -/

section Store

/-- Every element of a list is at most the maximum folded over it. -/
theorem le_foldr_max (l : List Nat) : ∀ x ∈ l, x ≤ l.foldr max 0 := by
  induction l with
  | nil => simp
  | cons a l ih =>
    intro x hx
    rcases List.mem_cons.mp hx with rfl | hx
    · exact le_max_left _ _
    · exact le_trans (ih x hx) (le_max_right _ _)

/-- The id generated for the next row is carried by no row of the table. -/
theorem DB.nextID_not_mem (db : DB) : db.nextID ∉ db.rows.map Todo.ID := by
  intro h
  have := le_foldr_max _ _ h
  unfold DB.nextID at this
  omega

/-- After a successful delete statement no live row carries the deleted id. -/
theorem DB.live_after_Delete (db : DB) (todo : Todo) (h : (db.Delete todo).1 = none) :
    ∀ t ∈ (db.Delete todo).2.live, t.ID ≠ todo.ID := by
  unfold DB.Delete at h ⊢
  split_ifs at h ⊢ with hmem
  · intro t ht
    simp only [DB.live, List.mem_filter, List.mem_map, decide_eq_true_eq] at ht
    rcases ht with ⟨⟨r, _, hr⟩, hlive⟩
    split_ifs at hr with hc
    · subst hr
      simp at hlive
    · subst hr
      intro hid
      exact hc ⟨hid, hlive⟩

/-- C8: for every store and every id, after `DeleteTodo(id)` succeeds, a
following `FindByID(id)` fails with the not-found error and returns the zero
record, and `FindAll` succeeds with a list that holds no record with that
id. -/
theorem C8_deleted_absent_from_reads (db : DB) (id : Nat)
    (h : ((NewTodoService NewTodoRepository).DeleteTodo id db).1 = none) :
    NewTodoRepository.FindByID id ((NewTodoService NewTodoRepository).DeleteTodo id db).2
        = ((Todo.zero, some ErrRecordNotFound),
            ((NewTodoService NewTodoRepository).DeleteTodo id db).2)
    ∧ (NewTodoRepository.FindAll ((NewTodoService NewTodoRepository).DeleteTodo id db).2).1.2
        = none
    ∧ ∀ t ∈ (NewTodoRepository.FindAll
        ((NewTodoService NewTodoRepository).DeleteTodo id db).2).1.1, t.ID ≠ id := by
  have key : ∀ t ∈ ((NewTodoService NewTodoRepository).DeleteTodo id db).2.live,
      t.ID ≠ id := by
    simp only [NewTodoService, todoService.DeleteTodo, NewTodoRepository,
      todoRepository.FindByID, todoRepository.Delete, DB.First] at h ⊢
    cases hf : db.live.filter (fun r => decide (r.ID = id)) with
    | nil =>
      rw [hf] at h
      simp at h
    | cons r rest =>
      rw [hf] at h
      simp only at h ⊢
      have hr : r ∈ db.live.filter (fun r => decide (r.ID = id)) := by
        rw [hf]
        exact List.mem_cons_self _ _
      have hid : r.ID = id := by simpa using (List.mem_filter.mp hr).2
      rw [← hid]
      exact DB.live_after_Delete db r h
  generalize ((NewTodoService NewTodoRepository).DeleteTodo id db).2 = db1 at key ⊢
  refine ⟨?_, ?_, ?_⟩
  · have hnil : db1.live.filter (fun r => decide (r.ID = id)) = [] := by
      rw [List.filter_eq_nil_iff]
      intro r hr hid
      exact key r hr (by simpa using hid)
    simp [NewTodoRepository, todoRepository.FindByID, DB.First, hnil]
  · simp [NewTodoRepository, todoRepository.FindAll, DB.Find]
  · simpa [NewTodoRepository, todoRepository.FindAll, DB.Find] using key

/-- Witness of C8: deleting id 1 from the store holding one record with
id 1. -/
theorem C8_deleted_absent_from_reads_witness :
    NewTodoRepository.FindByID 1 ((NewTodoService NewTodoRepository).DeleteTodo 1 sampleDB).2
        = ((Todo.zero, some ErrRecordNotFound),
            ((NewTodoService NewTodoRepository).DeleteTodo 1 sampleDB).2)
    ∧ (NewTodoRepository.FindAll
        ((NewTodoService NewTodoRepository).DeleteTodo 1 sampleDB).2).1.2 = none
    ∧ ∀ t ∈ (NewTodoRepository.FindAll
        ((NewTodoService NewTodoRepository).DeleteTodo 1 sampleDB).2).1.1, t.ID ≠ 1 :=
  C8_deleted_absent_from_reads sampleDB 1 (by decide)

/-- C9: for every store and every valid payload `P` (a payload that carries
no id and no deletion time), `Create(P)` succeeds and returns a record whose
id is generated by the store, non-zero and carried by no row before, and whose
title, description and completed flag are those of `P`; a following
`FindByID` on that id succeeds and returns that record. -/
theorem C9_create_then_find (db : DB) (P : Todo) (hid : P.ID = 0) (hdel : P.DeletedAt = none) :
    (NewTodoRepository.Create P db).1.2 = none
    ∧ (NewTodoRepository.Create P db).1.1.ID ≠ 0
    ∧ (NewTodoRepository.Create P db).1.1.ID = db.nextID
    ∧ (NewTodoRepository.Create P db).1.1.ID ∉ db.rows.map Todo.ID
    ∧ (NewTodoRepository.Create P db).1.1.Title = P.Title
    ∧ (NewTodoRepository.Create P db).1.1.Description = P.Description
    ∧ (NewTodoRepository.Create P db).1.1.Completed = P.Completed
    ∧ NewTodoRepository.FindByID (NewTodoRepository.Create P db).1.1.ID
        (NewTodoRepository.Create P db).2
      = (((NewTodoRepository.Create P db).1.1, none), (NewTodoRepository.Create P db).2) := by
  have hfresh := DB.nextID_not_mem db
  have hnil : (db.rows.filter (fun r => decide (r.DeletedAt = none))).filter
      (fun r => decide (r.ID = db.nextID)) = [] := by
    rw [List.filter_eq_nil_iff]
    intro r hr hrid
    exact hfresh (List.mem_map.mpr ⟨r, (List.mem_filter.mp hr).1, by simpa using hrid⟩)
  refine ⟨?_, ?_, ?_, ?_, ?_, ?_, ?_, ?_⟩
  · simp [NewTodoRepository, todoRepository.Create, DB.Create, hid]
  · simp [NewTodoRepository, todoRepository.Create, DB.Create, hid, DB.nextID]
  · simp [NewTodoRepository, todoRepository.Create, DB.Create, hid]
  · simpa [NewTodoRepository, todoRepository.Create, DB.Create, hid] using hfresh
  · simp [NewTodoRepository, todoRepository.Create, DB.Create, hid]
  · simp [NewTodoRepository, todoRepository.Create, DB.Create, hid]
  · simp [NewTodoRepository, todoRepository.Create, DB.Create, hid]
  · simp [NewTodoRepository, todoRepository.Create, todoRepository.FindByID, DB.Create,
      DB.First, DB.live, hid, hdel, List.filter_append, hnil]

/-- Witness of C9: creating the payload `{"title":"Task 1"}` in the store
holding one record with id 1. -/
theorem C9_create_then_find_witness :
    (NewTodoRepository.Create samplePayload sampleDB).1.2 = none
    ∧ (NewTodoRepository.Create samplePayload sampleDB).1.1.ID = 2
    ∧ NewTodoRepository.FindByID 2 (NewTodoRepository.Create samplePayload sampleDB).2
      = (({ samplePayload with ID := 2, CreatedAt := 11, UpdatedAt := 11 }, none),
          (NewTodoRepository.Create samplePayload sampleDB).2) :=
  ⟨(C9_create_then_find sampleDB samplePayload rfl rfl).1,
    (C9_create_then_find sampleDB samplePayload rfl rfl).2.2.1,
    (C9_create_then_find sampleDB samplePayload rfl rfl).2.2.2.2.2.2.2⟩

end Store

end TodoApi
